import Mathlib

/-!
Verification development for the Solidarity safety-coordination code:
a shallow embedding of `harmoniousSafetyCoordinator.js` (class
`HarmoniousSafetyCoordinator`) and of the AI safety coordinator
(class `AISafetyCoordinator`), together with theorems settling the
behavioural claims about threshold classification, level clamping,
flow-mode aggregation and emergency stabilization.

JavaScript numbers are modelled as exact rationals extended with the
special values `Infinity`, `-Infinity` and `NaN`; numeric literals of
the source (`0.618`, `0.05`, ...) are read as the exact rationals they
denote.  The comparison, `Math.min`/`Math.max`, addition, division and
strict-inequality (`!==`) semantics on these values follow JavaScript.
-/

/-- Rational addition computed on numerators and denominators via
`mkRat`.  This is extensionally `(· + ·)` on `ℚ` (see `ratAdd_eq`); it is
spelled out so that concrete instances reduce inside the kernel. -/
def ratAdd (a b : ℚ) : ℚ :=
  mkRat (a.num * (b.den : ℤ) + b.num * (a.den : ℤ)) (a.den * b.den)

/-- Rational division by a natural number computed via `mkRat`.  For
`n ≠ 0` this is extensionally `a / n` (see `ratDivNat_eq`). -/
def ratDivNat (a : ℚ) (n : ℕ) : ℚ :=
  mkRat a.num (a.den * n)

/-- A JavaScript number: a finite value (modelled exactly as a rational)
or one of the special values `Infinity`, `-Infinity`, `NaN`. -/
inductive JSNum where
  | num (q : ℚ)
  | inf
  | negInf
  | nan
deriving DecidableEq, Repr

namespace JSNum

/-- JavaScript `x <= y` (false whenever either side is `NaN`). -/
def jsLe : JSNum → JSNum → Bool
  | .nan, _ => false
  | _, .nan => false
  | .negInf, _ => true
  | _, .inf => true
  | .inf, _ => false
  | _, .negInf => false
  | .num a, .num b => decide (a ≤ b)

/-- JavaScript `x >= y`. -/
def jsGe (x y : JSNum) : Bool := jsLe y x

/-- JavaScript `x < y` (false whenever either side is `NaN`). -/
def jsLt : JSNum → JSNum → Bool
  | .nan, _ => false
  | _, .nan => false
  | .inf, _ => false
  | _, .negInf => false
  | .negInf, _ => true
  | _, .inf => true
  | .num a, .num b => decide (a < b)

/-- JavaScript `x > y`. -/
def jsGt (x y : JSNum) : Bool := jsLt y x

/-- JavaScript strict inequality `x !== y` on numbers: `NaN` is unequal
to everything, itself included. -/
def jsNe (x y : JSNum) : Bool :=
  match x, y with
  | .nan, _ => true
  | _, .nan => true
  | a, b => decide (a ≠ b)

/-- Binary `Math.min`: `NaN` if either argument is `NaN`, otherwise the
smaller argument. -/
def jsMin2 (x y : JSNum) : JSNum :=
  match x, y with
  | .nan, _ => .nan
  | _, .nan => .nan
  | a, b => if jsLe a b then a else b

/-- Binary `Math.max`: `NaN` if either argument is `NaN`, otherwise the
larger argument. -/
def jsMax2 (x y : JSNum) : JSNum :=
  match x, y with
  | .nan, _ => .nan
  | _, .nan => .nan
  | a, b => if jsLe a b then b else a

/-- Spread `Math.min(...levels)`: folds binary min over the list starting
from `Math.min()`'s empty-argument result `Infinity`. -/
def jsMinList (levels : List JSNum) : JSNum := levels.foldl jsMin2 .inf

/-- Spread `Math.max(...levels)`: folds binary max over the list starting
from `Math.max()`'s empty-argument result `-Infinity`. -/
def jsMaxList (levels : List JSNum) : JSNum := levels.foldl jsMax2 .negInf

/-- JavaScript `x + y` on numbers. -/
def jsAdd : JSNum → JSNum → JSNum
  | .nan, _ => .nan
  | _, .nan => .nan
  | .inf, .negInf => .nan
  | .negInf, .inf => .nan
  | .inf, _ => .inf
  | _, .inf => .inf
  | .negInf, _ => .negInf
  | _, .negInf => .negInf
  | .num a, .num b => .num (ratAdd a b)

/-- Left-to-right sum `levels.reduce((sum, level) => sum + level, 0)`. -/
def jsSum (levels : List JSNum) : JSNum := levels.foldl jsAdd (.num 0)

/-- JavaScript division `x / n` by a nonnegative-integer array length:
division by `0` follows IEEE (`0/0 = NaN`, `q/0 = ±Infinity`). -/
def jsDivNat (x : JSNum) (n : ℕ) : JSNum :=
  match x with
  | .nan => .nan
  | .inf => .inf
  | .negInf => .negInf
  | .num q =>
      if n = 0 then
        if q = 0 then .nan else if 0 < q then .inf else .negInf
      else .num (ratDivNat q n)

end JSNum

/-- Name of a safety-threshold bucket in `this.safetyThresholds`
(`harmoniousSafetyCoordinator.js`).  `UNKNOWN` is the fallback result of
`assessSafetyLevel` when no bucket matches. -/
inductive SafetyBucket where
  | CRITICAL_EMERGENCY
  | WARNING_LEVEL
  | CAUTION_RANGE
  | OPTIMAL_RANGE
  | UPPER_CAUTION
  | UPPER_WARNING
  | CRITICAL_UPPER
  | UNKNOWN
deriving DecidableEq, Repr

/-- The ordered threshold table `this.safetyThresholds`: each entry is the
bucket name with its `min` and `max` bounds, in the object's insertion
order (the order `Object.entries` iterates). -/
def safetyThresholds : List (SafetyBucket × ℚ × ℚ) :=
  [ (.CRITICAL_EMERGENCY, 0, mkRat 5 100)
  , (.WARNING_LEVEL, mkRat 5 100, mkRat 15 100)
  , (.CAUTION_RANGE, mkRat 15 100, mkRat 25 100)
  , (.OPTIMAL_RANGE, mkRat 25 100, mkRat 75 100)
  , (.UPPER_CAUTION, mkRat 75 100, mkRat 85 100)
  , (.UPPER_WARNING, mkRat 85 100, mkRat 95 100)
  , (.CRITICAL_UPPER, mkRat 95 100, 1) ]

/-- First-match lookup of the loop in `assessSafetyLevel`: return the first
bucket with `level >= threshold.min && level <= threshold.max`. -/
def findThreshold (level : JSNum) : List (SafetyBucket × ℚ × ℚ) → SafetyBucket
  | [] => .UNKNOWN
  | (b, mn, mx) :: rest =>
      if level.jsGe (.num mn) && level.jsLe (.num mx) then b
      else findThreshold level rest

/-- Method `assessSafetyLevel(level)` of `HarmoniousSafetyCoordinator`:
iterate the threshold table in insertion order, return the first matching
bucket, else the `UNKNOWN` fallback. -/
def assessSafetyLevel (level : JSNum) : SafetyBucket :=
  findThreshold level safetyThresholds

/-- Key of the `this.componentLevels` object of
`HarmoniousSafetyCoordinator` (its six fixed properties). -/
inductive Component where
  | quantum
  | launcher
  | solidarity
  | ai
  | colorMotion
  | system
deriving DecidableEq, Repr

/-- The mutable state of a `HarmoniousSafetyCoordinator` instance: the six
entries of `this.componentLevels` and `this.currentFlowMode`. -/
structure CoordState where
  quantum : JSNum
  launcher : JSNum
  solidarity : JSNum
  ai : JSNum
  colorMotion : JSNum
  system : JSNum
  currentFlowMode : String
deriving DecidableEq, Repr

namespace CoordState

/-- Read `this.componentLevels[c]`. -/
def getComponent (s : CoordState) : Component → JSNum
  | .quantum => s.quantum
  | .launcher => s.launcher
  | .solidarity => s.solidarity
  | .ai => s.ai
  | .colorMotion => s.colorMotion
  | .system => s.system

/-- Write `this.componentLevels[c] = v`. -/
def setComponent (s : CoordState) (c : Component) (v : JSNum) : CoordState :=
  match c with
  | .quantum => { s with quantum := v }
  | .launcher => { s with launcher := v }
  | .solidarity => { s with solidarity := v }
  | .ai => { s with ai := v }
  | .colorMotion => { s with colorMotion := v }
  | .system => { s with system := v }

/-- The list `Object.values(this.componentLevels)` in insertion order. -/
def componentValues (s : CoordState) : List JSNum :=
  [s.quantum, s.launcher, s.solidarity, s.ai, s.colorMotion, s.system]

/-- The five non-`system` component levels, in insertion order. -/
def nonSystemLevels (s : CoordState) : List JSNum :=
  [s.quantum, s.launcher, s.solidarity, s.ai, s.colorMotion]

end CoordState

/-- The filter on line 94 of `harmoniousSafetyCoordinator.js`:
`Object.values(this.componentLevels).filter(level => level !== this.componentLevels.system)`.
The predicate compares each value against the current `system` VALUE with
strict inequality, so every entry whose level equals the current system
level is dropped (the `system` entry itself always is, but so is any
other component that happens to coincide with it). -/
def filteredLevels (s : CoordState) : List JSNum :=
  (s.componentValues).filter (fun level => level.jsNe s.system)

/-- The `switch (this.currentFlowMode)` of `updateSystemSafety`
(lines 97-109): `conservative` takes `Math.min(...levels)`, `balanced`
the left-to-right sum divided by the length, `performance`
`Math.max(...levels)`, and any other mode falls through to the
conservative default. -/
def aggregate (mode : String) (levels : List JSNum) : JSNum :=
  if mode = "conservative" then JSNum.jsMinList levels
  else if mode = "balanced" then (JSNum.jsSum levels).jsDivNat levels.length
  else if mode = "performance" then JSNum.jsMaxList levels
  else JSNum.jsMinList levels

/-- Method `updateSystemSafety()`: recompute the system level from the
value-filtered list under the current flow mode, store it in
`componentLevels.system`, and return its assessment. -/
def updateSystemSafety (s : CoordState) : SafetyBucket × CoordState :=
  let newSystemLevel := aggregate s.currentFlowMode (filteredLevels s)
  (assessSafetyLevel newSystemLevel, { s with system := newSystemLevel })

/-- The clamp on line 79: `Math.max(0.00, Math.min(1.00, level))`. -/
def clampLevel (level : JSNum) : JSNum :=
  JSNum.jsMax2 (.num 0) (JSNum.jsMin2 (.num 1) level)

/-- Method `setComponentSafety(component, level)`: clamp the requested
level, store it for the component, run `updateSystemSafety`, and return
the assessment of the clamped component level. -/
def setComponentSafety (s : CoordState) (c : Component) (level : JSNum) :
    SafetyBucket × CoordState :=
  let safeLevel := clampLevel level
  let s1 := s.setComponent c safeLevel
  (assessSafetyLevel safeLevel, (updateSystemSafety s1).2)

/-- Result of the JavaScript property lookup `this.flowRules[mode]`:
an own data property of the `flowRules` object literal, a truthy value
inherited through the prototype chain from `Object.prototype`, or
`undefined`. -/
inductive JSLookup where
  | own (value : String)
  | inherited
  | missingProp
deriving DecidableEq, Repr

/-- The property names every plain object literal inherits from
`Object.prototype` (methods and the `__proto__` accessor).  Their values
are functions or objects, hence truthy. -/
def objectPrototypeKeys : List String :=
  ["constructor", "hasOwnProperty", "isPrototypeOf", "propertyIsEnumerable",
   "toLocaleString", "toString", "valueOf", "__proto__",
   "__defineGetter__", "__defineSetter__", "__lookupGetter__",
   "__lookupSetter__"]

/-- The lookup `this.flowRules[mode]` on the object literal
`{ conservative: 'min', balanced: 'average', performance: 'max' }`:
the own property when `mode` is one of the three keys, otherwise a
truthy value inherited from `Object.prototype` when `mode` names an
inherited property (e.g. `'toString'`), otherwise `undefined`. -/
def flowRules (mode : String) : JSLookup :=
  if mode = "conservative" then .own "min"
  else if mode = "balanced" then .own "average"
  else if mode = "performance" then .own "max"
  else if mode ∈ objectPrototypeKeys then .inherited
  else .missingProp

/-- Method `setFlowMode(mode)`: the guard `if (!this.flowRules[mode])`
returns `false` (modelled as `none`) and changes nothing only when the
lookup is `undefined` (own values and inherited prototype properties are
all truthy); otherwise `mode` is stored in `currentFlowMode` and
`updateSystemSafety` re-runs immediately, its assessment being
returned. -/
def setFlowMode (s : CoordState) (mode : String) : Option SafetyBucket × CoordState :=
  match flowRules mode with
  | .missingProp => (none, s)
  | _ =>
      let s1 := { s with currentFlowMode := mode }
      let r := updateSystemSafety s1
      (some r.1, r.2)

/-- The bridging-baseline constant `0.618` of `emergencyStabilization`. -/
def bridgingBaseline : JSNum := .num (mkRat 618 1000)

/-- Method `emergencyStabilization(reason)`: set every non-`system`
component directly to the bridging baseline `0.618`, then run
`updateSystemSafety`.  The `reason` argument is only logged and has no
effect on the state. -/
def emergencyStabilization (s : CoordState) : CoordState :=
  let s1 : CoordState :=
    { s with quantum := bridgingBaseline, launcher := bridgingBaseline,
             solidarity := bridgingBaseline, ai := bridgingBaseline,
             colorMotion := bridgingBaseline }
  (updateSystemSafety s1).2

/-- Method `harmonizeAllComponents(targetLevel)`: call
`setComponentSafety` for each non-`system` component in insertion
order. -/
def harmonizeAllComponents (s : CoordState) (targetLevel : JSNum) : CoordState :=
  [Component.quantum, Component.launcher, Component.solidarity,
   Component.ai, Component.colorMotion].foldl
    (fun st c => (setComponentSafety st c targetLevel).2) s

/-- The constructor's initial state: every component level at the golden
ratio baseline `0.618` and the flow mode defaulted to `conservative`. -/
def initialCoordinator : CoordState :=
  { quantum := .num (mkRat 618 1000), launcher := .num (mkRat 618 1000), solidarity := .num (mkRat 618 1000),
    ai := .num (mkRat 618 1000), colorMotion := .num (mkRat 618 1000), system := .num (mkRat 618 1000),
    currentFlowMode := "conservative" }

/-- The `riskLevel` field attached to each entry of `this.aiThresholds`
in the `AISafetyCoordinator` class. -/
inductive RiskLevel where
  | critical
  | high
  | moderate
  | low
deriving DecidableEq, Repr

/-- The `riskLevel` carried by each bucket of `this.aiThresholds`
(`CRITICAL_EMERGENCY` and `CRITICAL_UPPER` are `critical`; the fallback
object of `assessSafety` reuses `WARNING_LEVEL`, whose risk is `high`). -/
def aiRiskLevel : SafetyBucket → RiskLevel
  | .CRITICAL_EMERGENCY => .critical
  | .WARNING_LEVEL => .high
  | .CAUTION_RANGE => .moderate
  | .OPTIMAL_RANGE => .low
  | .UPPER_CAUTION => .moderate
  | .UPPER_WARNING => .high
  | .CRITICAL_UPPER => .critical
  | .UNKNOWN => .high

/-- Method `assessSafety(level)` of `AISafetyCoordinator`: same
first-match iteration over the same `min`/`max` bounds as the
harmonious coordinator, but the fallback returns the `WARNING_LEVEL`
bucket instead of `UNKNOWN`. -/
def aiAssessSafety (level : JSNum) : SafetyBucket :=
  match findThreshold level safetyThresholds with
  | .UNKNOWN => .WARNING_LEVEL
  | b => b

/-- The mutable state of an `AISafetyCoordinator` instance, restricted to
the fields the verified claims touch: `currentSafetyLevel`,
`emergencyProtocolsActive` and `systemMode` (the risk metrics and
quantum-coherence mirrors are write-only bookkeeping). -/
structure AIState where
  currentSafetyLevel : JSNum
  emergencyProtocolsActive : Bool
  systemMode : String
deriving DecidableEq, Repr

/-- Method `setSafetyLevel(newLevel, reason)` of `AISafetyCoordinator`:
clamp with `Math.max(0, Math.min(1, newLevel))`, store, assess the stored
level, then toggle the emergency protocols: activate when the assessed
risk is `critical` and the protocols are off, deactivate when the risk is
not `critical` and they are on.  Returns the assessment. -/
def aiSetSafetyLevel (s : AIState) (newLevel : JSNum) : SafetyBucket × AIState :=
  let lvl := clampLevel newLevel
  let assessment := aiAssessSafety lvl
  let s1 : AIState := { s with currentSafetyLevel := lvl }
  let s2 : AIState :=
    if aiRiskLevel assessment = .critical ∧ s1.emergencyProtocolsActive = false then
      { s1 with emergencyProtocolsActive := true, systemMode := "emergency" }
    else if aiRiskLevel assessment ≠ .critical ∧ s1.emergencyProtocolsActive = true then
      { s1 with emergencyProtocolsActive := false, systemMode := "optimal" }
    else s1
  (assessment, s2)

/-- Method `emergencyStabilization(reason)` of `AISafetyCoordinator`:
set `emergencyProtocolsActive` to `true`, then delegate to
`setSafetyLevel(0.618)` (which re-assesses and toggles the protocols
back off, the baseline being non-critical). -/
def aiEmergencyStabilization (s : AIState) : SafetyBucket × AIState :=
  aiSetSafetyLevel { s with emergencyProtocolsActive := true } (.num (mkRat 618 1000))

/-- Partition of `[0,1]` written from the spec's threshold table, with the
amended boundary policy the code actually implements: every bucket owns
its upper boundary (`0.05 ↦ CriticalLow`, `0.25 ↦ CautionLow`,
`0.95 ↦ WarningHigh`), with no carve-out for `Optimal` at `0.25` or
`CriticalHigh` at `0.95`. -/
def specBucket (q : ℚ) : SafetyBucket :=
  if q ≤ mkRat 5 100 then .CRITICAL_EMERGENCY
  else if q ≤ mkRat 15 100 then .WARNING_LEVEL
  else if q ≤ mkRat 25 100 then .CAUTION_RANGE
  else if q ≤ mkRat 75 100 then .OPTIMAL_RANGE
  else if q ≤ mkRat 85 100 then .UPPER_CAUTION
  else if q ≤ mkRat 95 100 then .UPPER_WARNING
  else .CRITICAL_UPPER

/-- A level is out of the classification domain when it is non-finite or
a finite value outside `[0,1]`. -/
def outOfRange : JSNum → Bool
  | .num q => decide (q < 0) || decide (1 < q)
  | _ => true

/-- The state used for the strategy-switch scenario: the registered
component levels form the set `{0.1, 0.9}` (quantum at `0.1`, the other
four at `0.9`), the stored system level still at the `0.618` baseline
under the default `conservative` mode. -/
def strategySwitchState : CoordState :=
  { quantum := .num (mkRat 1 10), launcher := .num (mkRat 9 10), solidarity := .num (mkRat 9 10),
    ai := .num (mkRat 9 10), colorMotion := .num (mkRat 9 10), system := .num (mkRat 618 1000),
    currentFlowMode := "conservative" }

/-- C1: the stored system level is NOT a pure function of the component
levels and strategy.  After `emergencyStabilization` from the initial
state the stored `system` is `Infinity` while the conservative aggregate
of the five registered component levels is `0.618`; and two states with
identical component levels and strategy but different previous system
values recompute to different system levels, so the result depends on the
previous `systemLevel` (the value-equality filter drops every component
equal to it). -/
theorem systemLevel_not_pure_function_of_components :
    (emergencyStabilization initialCoordinator).system = JSNum.inf ∧
    aggregate (emergencyStabilization initialCoordinator).currentFlowMode
        (emergencyStabilization initialCoordinator).nonSystemLevels = JSNum.num (mkRat 618 1000) ∧
    (emergencyStabilization initialCoordinator).system ≠
      aggregate (emergencyStabilization initialCoordinator).currentFlowMode
        (emergencyStabilization initialCoordinator).nonSystemLevels ∧
    ({ initialCoordinator with system := JSNum.num (mkRat 5 10) } : CoordState).nonSystemLevels =
      initialCoordinator.nonSystemLevels ∧
    (updateSystemSafety initialCoordinator).2.system = JSNum.inf ∧
    (updateSystemSafety { initialCoordinator with system := JSNum.num (mkRat 5 10) }).2.system =
      JSNum.num (mkRat 618 1000) := by decide

/-- C2 counterexample: the coordinator classifies the shared boundary
`0.25` as `CAUTION_RANGE`, not `OPTIMAL_RANGE`, and `0.95` as
`UPPER_WARNING`, not `CRITICAL_UPPER`, because the first matching entry
of the inclusive threshold table wins. -/
theorem classify_boundary_counterexample :
    assessSafetyLevel (JSNum.num (mkRat 25 100)) = SafetyBucket.CAUTION_RANGE ∧
    SafetyBucket.CAUTION_RANGE ≠ SafetyBucket.OPTIMAL_RANGE ∧
    assessSafetyLevel (JSNum.num (mkRat 95 100)) = SafetyBucket.UPPER_WARNING ∧
    SafetyBucket.UPPER_WARNING ≠ SafetyBucket.CRITICAL_UPPER := by decide

/-- C3: `emergencyStabilization` is not idempotent.  From the initial
state the first call stores `system = Infinity` (classified `UNKNOWN`,
not `Optimal`), the second call stores `system = 0.618`, so two calls in
immediate succession yield different states and the first violates
`systemLevel = 0.618`. -/
theorem emergencyStabilization_not_idempotent :
    (emergencyStabilization initialCoordinator).system = JSNum.inf ∧
    assessSafetyLevel (emergencyStabilization initialCoordinator).system =
      SafetyBucket.UNKNOWN ∧
    (emergencyStabilization (emergencyStabilization initialCoordinator)).system =
      JSNum.num (mkRat 618 1000) ∧
    emergencyStabilization initialCoordinator ≠
      emergencyStabilization (emergencyStabilization initialCoordinator) := by decide

/-- C4 counterexample: aggregation over the empty level list does not
fail; under the conservative strategy it silently returns `Infinity`
(the result of `Math.min()` with no arguments). -/
theorem aggregate_empty_counterexample :
    aggregate "conservative" [] = JSNum.inf := by decide

/-- C4 amended: aggregation over an empty level list silently returns a
numeric default — `Infinity` under `conservative`, `NaN` under `balanced`
(`0/0`), `-Infinity` under `performance`; no error is raised.  The empty
list actually arises: in the initial state every component equals the
stored system level, so the value-equality filter empties the list. -/
theorem aggregate_empty_amended :
    aggregate "conservative" [] = JSNum.inf ∧
    aggregate "balanced" [] = JSNum.nan ∧
    aggregate "performance" [] = JSNum.negInf ∧
    filteredLevels initialCoordinator = [] := by decide

/-- C5 counterexample: classifying `NaN` does not fail; the harmonious
coordinator silently returns its `UNKNOWN` fallback bucket and the AI
coordinator its `WARNING_LEVEL` fallback bucket. -/
theorem classify_nan_counterexample :
    assessSafetyLevel JSNum.nan = SafetyBucket.UNKNOWN ∧
    aiAssessSafety JSNum.nan = SafetyBucket.WARNING_LEVEL := by decide

/-- C6 counterexample: storing `NaN` defeats the clamp — the stored value
is `NaN`, which is not within `[0,1]` (both bound comparisons are
false), because `Math.max(0, Math.min(1, NaN))` is `NaN`. -/
theorem clamp_nan_counterexample :
    (setComponentSafety initialCoordinator Component.quantum JSNum.nan).2.quantum =
      JSNum.nan ∧
    JSNum.jsGe JSNum.nan (JSNum.num 0) = false ∧
    JSNum.jsLe JSNum.nan (JSNum.num 1) = false := by decide

/-- C7: on the level list `[0.2, 0.5, 0.9]` the aggregation switch
returns the minimum `0.2` under `conservative`, the left-to-right
arithmetic mean `1.6/3` under `balanced`, and the maximum `0.9` under
`performance`. -/
theorem aggregate_example_levels :
    aggregate "conservative" [JSNum.num (mkRat 2 10), JSNum.num (mkRat 5 10), JSNum.num (mkRat 9 10)] =
      JSNum.num (mkRat 2 10) ∧
    aggregate "balanced" [JSNum.num (mkRat 2 10), JSNum.num (mkRat 5 10), JSNum.num (mkRat 9 10)] =
      JSNum.num (mkRat 16 30) ∧
    aggregate "performance" [JSNum.num (mkRat 2 10), JSNum.num (mkRat 5 10), JSNum.num (mkRat 9 10)] =
      JSNum.num (mkRat 9 10) := by decide

/-- C9: with registered component levels `{0.1, 0.9}`, switching the
flow mode to `performance` immediately recomputes and stores
`systemLevel = 0.9` and returns its classification, with no component
write (all five registered levels are unchanged). -/
theorem setFlowMode_performance_immediate :
    (setFlowMode strategySwitchState "performance").2.system = JSNum.num (mkRat 9 10) ∧
    (setFlowMode strategySwitchState "performance").1 =
      some (assessSafetyLevel (JSNum.num (mkRat 9 10))) ∧
    (setFlowMode strategySwitchState "performance").2.nonSystemLevels =
      strategySwitchState.nonSystemLevels ∧
    (setFlowMode strategySwitchState "performance").2.currentFlowMode =
      "performance" := by decide

/-- C10 counterexample: the mode string `'toString'` lies outside
`{conservative, balanced, performance}` yet is NOT rejected — the
property lookup finds the truthy `Object.prototype.toString` through the
prototype chain, so `setFlowMode` stores `currentFlowMode = 'toString'`,
recomputes through the switch's conservative default (from the initial
state: `Math.min()` of the emptied filtered list, i.e. `Infinity`), and
returns an assessment instead of `false`, mutating the state. -/
theorem setFlowMode_toString_counterexample :
    ("toString" ≠ "conservative" ∧ "toString" ≠ "balanced" ∧
      "toString" ≠ "performance") ∧
    (setFlowMode initialCoordinator "toString").1 = some SafetyBucket.UNKNOWN ∧
    (setFlowMode initialCoordinator "toString").2.currentFlowMode = "toString" ∧
    (setFlowMode initialCoordinator "toString").2.system = JSNum.inf ∧
    setFlowMode initialCoordinator "toString" ≠ (none, initialCoordinator) := by
  decide

/-- C10 amended: for every mode string that is neither one of the three
`flowRules` keys nor a property name inherited from `Object.prototype`,
`setFlowMode` returns `false` (modelled `none`) instead of an assessment
and leaves the whole state — strategy, every component level and the
system level — unchanged, with no recomputation.  Inherited names such
as `'toString'` instead pass the truthiness guard and mutate the
state. -/
theorem setFlowMode_undefined_lookup_rejected (s : CoordState) (mode : String)
    (h1 : mode ≠ "conservative") (h2 : mode ≠ "balanced")
    (h3 : mode ≠ "performance") (h4 : mode ∉ objectPrototypeKeys) :
    setFlowMode s mode = (none, s) := by
  unfold setFlowMode flowRules
  simp [h1, h2, h3, h4]

/-- Witness for the rejected-mode theorem at the concrete mode
`"turbo"` and the initial state. -/
theorem setFlowMode_undefined_lookup_rejected_witness :
    ("turbo" ≠ "conservative" ∧ "turbo" ≠ "balanced" ∧
      "turbo" ≠ "performance" ∧ "turbo" ∉ objectPrototypeKeys) ∧
    setFlowMode initialCoordinator "turbo" = (none, initialCoordinator) :=
  ⟨⟨by decide, by decide, by decide, by decide⟩,
    setFlowMode_undefined_lookup_rejected initialCoordinator "turbo"
      (by decide) (by decide) (by decide) (by decide)⟩

/-- Helper: `mkRat` on natural literals is the corresponding division. -/
theorem mkRat_natCast (a b : ℕ) : (mkRat (a : ℤ) b : ℚ) = (a : ℚ) / (b : ℚ) := by
  rw [Rat.mkRat_eq_divInt, Rat.divInt_eq_div]
  push_cast
  rfl

/-- Helper: `ratAdd` agrees with rational addition. -/
theorem ratAdd_eq (a b : ℚ) : ratAdd a b = a + b := by
  have ha : ((a.den : ℚ)) ≠ 0 := by exact_mod_cast a.den_ne_zero
  have hb : ((b.den : ℚ)) ≠ 0 := by exact_mod_cast b.den_ne_zero
  rw [ratAdd, Rat.mkRat_eq_divInt, Rat.divInt_eq_div]
  conv_rhs => rw [← Rat.num_div_den a, ← Rat.num_div_den b]
  push_cast
  field_simp

/-- Helper: `ratDivNat` agrees with division by a nonzero natural. -/
theorem ratDivNat_eq (a : ℚ) (n : ℕ) (hn : n ≠ 0) : ratDivNat a n = a / (n : ℚ) := by
  have ha : ((a.den : ℚ)) ≠ 0 := by exact_mod_cast a.den_ne_zero
  have hn' : ((n : ℚ)) ≠ 0 := by exact_mod_cast hn
  rw [ratDivNat, Rat.mkRat_eq_divInt, Rat.divInt_eq_div]
  conv_rhs => rw [← Rat.num_div_den a]
  push_cast
  field_simp

/-- C2 amended: on the whole domain `[0,1]` the coordinator's classifier
agrees with the partition in which EVERY bucket owns its upper boundary
(`0.05 ↦ CriticalLow`, `0.25 ↦ CautionLow`, `0.95 ↦ WarningHigh`), i.e.
with `specBucket`; the claim's carve-outs at `0.25` and `0.95` are the
only corrections. -/
theorem classify_matches_upper_boundary_partition (q : ℚ)
    (h0 : 0 ≤ q) (h1 : q ≤ 1) :
    assessSafetyLevel (JSNum.num q) = specBucket q := by
  rcases le_or_lt q (mkRat 5 100 : ℚ) with c1 | c1
  · simp [assessSafetyLevel, findThreshold, safetyThresholds, specBucket,
      JSNum.jsGe, JSNum.jsLe, h0, c1]
  rcases le_or_lt q (mkRat 15 100 : ℚ) with c2 | c2
  · simp [assessSafetyLevel, findThreshold, safetyThresholds, specBucket,
      JSNum.jsGe, JSNum.jsLe, h0, c1.le, not_le.mpr c1, c2]
  rcases le_or_lt q (mkRat 25 100 : ℚ) with c3 | c3
  · simp [assessSafetyLevel, findThreshold, safetyThresholds, specBucket,
      JSNum.jsGe, JSNum.jsLe, h0, c1.le, not_le.mpr c1, not_le.mpr c2, c2.le, c3]
  rcases le_or_lt q (mkRat 75 100 : ℚ) with c4 | c4
  · simp [assessSafetyLevel, findThreshold, safetyThresholds, specBucket,
      JSNum.jsGe, JSNum.jsLe, h0, c1.le, not_le.mpr c1, not_le.mpr c2,
      not_le.mpr c3, c3.le, c4]
  rcases le_or_lt q (mkRat 85 100 : ℚ) with c5 | c5
  · simp [assessSafetyLevel, findThreshold, safetyThresholds, specBucket,
      JSNum.jsGe, JSNum.jsLe, h0, c1.le, not_le.mpr c1, not_le.mpr c2,
      not_le.mpr c3, not_le.mpr c4, c4.le, c5]
  rcases le_or_lt q (mkRat 95 100 : ℚ) with c6 | c6
  · simp [assessSafetyLevel, findThreshold, safetyThresholds, specBucket,
      JSNum.jsGe, JSNum.jsLe, h0, c1.le, not_le.mpr c1, not_le.mpr c2,
      not_le.mpr c3, not_le.mpr c4, not_le.mpr c5, c5.le, c6]
  · simp [assessSafetyLevel, findThreshold, safetyThresholds, specBucket,
      JSNum.jsGe, JSNum.jsLe, h0, h1, c1.le, not_le.mpr c1, not_le.mpr c2,
      not_le.mpr c3, not_le.mpr c4, not_le.mpr c5, not_le.mpr c6, c6.le]

/-- Witness for the amended classification theorem at the boundary level
`0.25`, where it yields `CAUTION_RANGE`. -/
theorem classify_matches_upper_boundary_partition_witness :
    (0 : ℚ) ≤ mkRat 25 100 ∧ (mkRat 25 100 : ℚ) ≤ 1 ∧
      assessSafetyLevel (JSNum.num (mkRat 25 100)) = specBucket (mkRat 25 100) :=
  ⟨by decide, by decide,
    classify_matches_upper_boundary_partition (mkRat 25 100) (by decide) (by decide)⟩

/-- C5 amended: classifying any out-of-range or non-finite level does not
fail; the harmonious coordinator silently returns its `UNKNOWN` fallback
bucket (no `InvalidLevel` error exists in the code). -/
theorem classify_outOfRange_fallback (l : JSNum) (h : outOfRange l = true) :
    assessSafetyLevel l = SafetyBucket.UNKNOWN := by
  cases l with
  | num q =>
      simp only [outOfRange, Bool.or_eq_true, decide_eq_true_eq] at h
      rcases h with hq | hq
      · have n0 : ¬ ((0 : ℚ) ≤ q) := not_le.mpr hq
        have n5 : ¬ ((mkRat 5 100 : ℚ) ≤ q) :=
          not_le.mpr (hq.trans_le (by decide))
        have n15 : ¬ ((mkRat 15 100 : ℚ) ≤ q) :=
          not_le.mpr (hq.trans_le (by decide))
        have n25 : ¬ ((mkRat 25 100 : ℚ) ≤ q) :=
          not_le.mpr (hq.trans_le (by decide))
        have n75 : ¬ ((mkRat 75 100 : ℚ) ≤ q) :=
          not_le.mpr (hq.trans_le (by decide))
        have n85 : ¬ ((mkRat 85 100 : ℚ) ≤ q) :=
          not_le.mpr (hq.trans_le (by decide))
        have n95 : ¬ ((mkRat 95 100 : ℚ) ≤ q) :=
          not_le.mpr (hq.trans_le (by decide))
        simp [assessSafetyLevel, findThreshold, safetyThresholds,
          JSNum.jsGe, JSNum.jsLe, n0, n5, n15, n25, n75, n85, n95]
      · have u5 : ¬ (q ≤ (mkRat 5 100 : ℚ)) :=
          not_le.mpr ((by decide : (mkRat 5 100 : ℚ) ≤ 1).trans_lt hq)
        have u15 : ¬ (q ≤ (mkRat 15 100 : ℚ)) :=
          not_le.mpr ((by decide : (mkRat 15 100 : ℚ) ≤ 1).trans_lt hq)
        have u25 : ¬ (q ≤ (mkRat 25 100 : ℚ)) :=
          not_le.mpr ((by decide : (mkRat 25 100 : ℚ) ≤ 1).trans_lt hq)
        have u75 : ¬ (q ≤ (mkRat 75 100 : ℚ)) :=
          not_le.mpr ((by decide : (mkRat 75 100 : ℚ) ≤ 1).trans_lt hq)
        have u85 : ¬ (q ≤ (mkRat 85 100 : ℚ)) :=
          not_le.mpr ((by decide : (mkRat 85 100 : ℚ) ≤ 1).trans_lt hq)
        have u95 : ¬ (q ≤ (mkRat 95 100 : ℚ)) :=
          not_le.mpr ((by decide : (mkRat 95 100 : ℚ) ≤ 1).trans_lt hq)
        have u1 : ¬ (q ≤ (1 : ℚ)) := not_le.mpr hq
        simp [assessSafetyLevel, findThreshold, safetyThresholds,
          JSNum.jsGe, JSNum.jsLe, u5, u15, u25, u75, u85, u95, u1]
  | inf => rfl
  | negInf => rfl
  | nan => rfl

/-- Witness for the fallback-classification theorem at the concrete
out-of-range input `NaN`. -/
theorem classify_outOfRange_fallback_witness :
    outOfRange JSNum.nan = true ∧
      assessSafetyLevel JSNum.nan = SafetyBucket.UNKNOWN :=
  ⟨rfl, classify_outOfRange_fallback JSNum.nan rfl⟩

/-- Helper: the clamp on a finite value is the usual interval clamp. -/
theorem clampLevel_num (q : ℚ) :
    clampLevel (JSNum.num q) =
      JSNum.num (if q ≤ 0 then 0 else if 1 ≤ q then 1 else q) := by
  by_cases h1 : (1 : ℚ) ≤ q
  · have hq0 : ¬ (q ≤ 0) := not_le.mpr (lt_of_lt_of_le zero_lt_one h1)
    simp [clampLevel, JSNum.jsMin2, JSNum.jsMax2, JSNum.jsLe, h1, hq0, zero_le_one]
  · by_cases h0 : (0 : ℚ) ≤ q
    · by_cases hq0 : q ≤ 0
      · have hz : q = 0 := le_antisymm hq0 h0
        subst hz
        simp [clampLevel, JSNum.jsMin2, JSNum.jsMax2, JSNum.jsLe, h1]
      · simp [clampLevel, JSNum.jsMin2, JSNum.jsMax2, JSNum.jsLe, h1, h0, hq0]
    · have hq0 : q ≤ 0 := (not_le.mp h0).le
      simp [clampLevel, JSNum.jsMin2, JSNum.jsMax2, JSNum.jsLe, h1, h0, hq0]

/-- C6 amended: for every component other than the derived `system` entry
and every non-`NaN` float `x`, `setComponentSafety` stores exactly
`Math.max(0, Math.min(1, x))`, which lies in `[0,1]`, is `0` when
`x < 0`, `1` when `x > 1`, and exactly `x` otherwise.  (For `x = NaN` the
clamp stores `NaN`, which is the counterexample to the unrestricted
claim.) -/
theorem setComponentSafety_clamps (s : CoordState) (c : Component) (x : JSNum)
    (hc : c ≠ Component.system) (hx : x ≠ JSNum.nan) :
    (setComponentSafety s c x).2.getComponent c = clampLevel x ∧
    (clampLevel x).jsGe (JSNum.num 0) = true ∧
    (clampLevel x).jsLe (JSNum.num 1) = true ∧
    (x.jsLt (JSNum.num 0) = true → clampLevel x = JSNum.num 0) ∧
    (x.jsGt (JSNum.num 1) = true → clampLevel x = JSNum.num 1) ∧
    (x.jsGe (JSNum.num 0) = true → x.jsLe (JSNum.num 1) = true →
      clampLevel x = x) := by
  refine ⟨?_, ?_, ?_, ?_, ?_, ?_⟩
  · cases c with
    | system => exact absurd rfl hc
    | quantum => rfl
    | launcher => rfl
    | solidarity => rfl
    | ai => rfl
    | colorMotion => rfl
  · cases x with
    | nan => exact absurd rfl hx
    | inf => decide
    | negInf => decide
    | num q =>
        rw [clampLevel_num]
        split_ifs with a b
        · decide
        · decide
        · simp only [JSNum.jsGe, JSNum.jsLe, decide_eq_true_eq]
          linarith
  · cases x with
    | nan => exact absurd rfl hx
    | inf => decide
    | negInf => decide
    | num q =>
        rw [clampLevel_num]
        split_ifs with a b
        · decide
        · decide
        · simp only [JSNum.jsLe, decide_eq_true_eq]
          linarith
  · cases x with
    | nan => exact absurd rfl hx
    | inf => decide
    | negInf => decide
    | num q =>
        intro h
        simp only [JSNum.jsLt, decide_eq_true_eq] at h
        rw [clampLevel_num, if_pos h.le]
  · cases x with
    | nan => exact absurd rfl hx
    | inf => decide
    | negInf => decide
    | num q =>
        intro h
        simp only [JSNum.jsGt, JSNum.jsLt, decide_eq_true_eq] at h
        rw [clampLevel_num, if_neg (by linarith), if_pos h.le]
  · cases x with
    | nan => exact absurd rfl hx
    | inf => decide
    | negInf => decide
    | num q =>
        intro hge hle
        simp only [JSNum.jsGe, JSNum.jsLe, decide_eq_true_eq] at hge hle
        rw [clampLevel_num]
        split_ifs with a b
        · have hz : q = 0 := le_antisymm a hge
          rw [hz]
        · have ho : q = 1 := le_antisymm hle b
          rw [ho]
        · rfl

/-- Witness for the clamping theorem at the concrete component `quantum`
and the out-of-range input `2`, which is stored as `1`. -/
theorem setComponentSafety_clamps_witness :
    (Component.quantum ≠ Component.system ∧ JSNum.num 2 ≠ JSNum.nan) ∧
    ((setComponentSafety initialCoordinator Component.quantum
          (JSNum.num 2)).2.getComponent Component.quantum =
        clampLevel (JSNum.num 2) ∧
      (clampLevel (JSNum.num 2)).jsGe (JSNum.num 0) = true ∧
      (clampLevel (JSNum.num 2)).jsLe (JSNum.num 1) = true ∧
      ((JSNum.num 2).jsLt (JSNum.num 0) = true →
        clampLevel (JSNum.num 2) = JSNum.num 0) ∧
      ((JSNum.num 2).jsGt (JSNum.num 1) = true →
        clampLevel (JSNum.num 2) = JSNum.num 1) ∧
      ((JSNum.num 2).jsGe (JSNum.num 0) = true →
        (JSNum.num 2).jsLe (JSNum.num 1) = true →
          clampLevel (JSNum.num 2) = JSNum.num 2)) :=
  ⟨⟨by decide, by decide⟩,
    setComponentSafety_clamps initialCoordinator Component.quantum (JSNum.num 2)
      (by decide) (by decide)⟩

/-- C8: after every call to the AI coordinator's `setSafetyLevel`, the
`emergencyProtocolsActive` flag is true exactly when the assessment
returned by the call is one of the two critical buckets
(`CRITICAL_EMERGENCY` or `CRITICAL_UPPER`, the buckets whose
`riskLevel` is `critical`). -/
theorem emergencyActive_iff_critical (s : AIState) (x : JSNum) :
    (aiSetSafetyLevel s x).2.emergencyProtocolsActive = true ↔
      ((aiSetSafetyLevel s x).1 = SafetyBucket.CRITICAL_EMERGENCY ∨
        (aiSetSafetyLevel s x).1 = SafetyBucket.CRITICAL_UPPER) := by
  have hcrit : ∀ b : SafetyBucket,
      aiRiskLevel b = RiskLevel.critical ↔
        (b = SafetyBucket.CRITICAL_EMERGENCY ∨ b = SafetyBucket.CRITICAL_UPPER) := by
    intro b
    cases b <;> simp [aiRiskLevel]
  unfold aiSetSafetyLevel
  by_cases hc : aiRiskLevel (aiAssessSafety (clampLevel x)) = RiskLevel.critical <;>
    cases hA : s.emergencyProtocolsActive <;>
      simp [hc, hA, hcrit] <;>
        first
          | exact (hcrit _).mp hc
          | exact ⟨fun h => hc ((hcrit _).mpr (Or.inl h)),
              fun h => hc ((hcrit _).mpr (Or.inr h))⟩
